import Mathlib

/-!
Shallow embedding of the vibescribe transcription orchestration layer
(src/transcriber.py): model-name normalization and resolution, fault
classification, the transient-retry loop with the one-shot thinking-mode
downgrade, prompt-cache bookkeeping, response-text extraction, and the
transcribe facade. Strings are Lean Strings; the per-model cache map is an
association list; provider calls are an oracle stream of outcomes indexed by
call number; environment variables are Option String parameters.
-/

namespace Vibescribe

/-! ## String helpers mirroring the Python string operations used by the code -/

/-- Substring containment, mirroring the Python `in` operator on str. -/
def listContainsSub (needle : List Char) : List Char → Bool
  | [] => needle.isPrefixOf []
  | c :: rest => needle.isPrefixOf (c :: rest) || listContainsSub needle rest

/-- String-level substring containment: `containsSub n h` is Python `n in h`. -/
def containsSub (needle hay : String) : Bool :=
  listContainsSub needle.toList hay.toList

/-- Whitespace predicate used by `str.strip()` (ASCII range). -/
def wsB (c : Char) : Bool := c.isWhitespace

/-- ASCII lower-casing of one character (Python `str.lower()`; the error and
configuration strings the code lowercases are ASCII). -/
def asciiLowerChar (c : Char) : Char :=
  if 65 ≤ c.toNat ∧ c.toNat ≤ 90 then Char.ofNat (c.toNat + 32) else c

/-- Python `str.lower()` on a String. -/
def pyLower (s : String) : String := String.mk (s.toList.map asciiLowerChar)

/-- Drop leading whitespace. -/
def ldropWS (l : List Char) : List Char := l.dropWhile wsB

/-- Drop trailing whitespace. -/
def rdropWS (l : List Char) : List Char := (l.reverse.dropWhile wsB).reverse

/-- Python `str.strip()` on a character list. -/
def pyStrip (l : List Char) : List Char := rdropWS (ldropWS l)

/-- Python `str.strip()` on a String. -/
def pyStripS (s : String) : String := String.mk (pyStrip s.toList)

/-- Python `str.removeprefix(p)` on character lists. -/
def removePrefixL (p l : List Char) : List Char :=
  if p.isPrefixOf l then l.drop p.length else l

/-- Word character for the regex token `\b` boundary (Python `\w`). -/
def isWordChar (c : Char) : Bool := c.isAlphanum || c = '_'

/-- Search for `tok` occurring with word boundaries on both sides, as
`re.search(r"\b tok \b", m)` does for an all-word-char token. `prev` is the
character just before the current position, if any. -/
def tokenSearch (tok : List Char) : Option Char → List Char → Bool
  | prev, l =>
    (tok.isPrefixOf l
      && (match prev with | none => true | some c => !isWordChar c)
      && (match l.drop tok.length with | [] => true | c :: _ => !isWordChar c))
    || match l with
       | [] => false
       | c :: rest => tokenSearch tok (some c) rest

/-- Boundary search at String level starting at the beginning of the string. -/
def hasBoundedToken (tok m : String) : Bool :=
  tokenSearch tok.toList none m.toList

/-! ## Constants of the Transcriber class (src/transcriber.py lines 33-52) -/

def MODEL : String := "gemini-2.5-flash"

def DEFAULT_THINKING_LEVEL : String := "minimal"

def DEFAULT_PROMPT_CACHE_TTL : String := "3600s"

def MODEL_ALIASES : List (String × String) :=
  [("gemini-3.0-flash", "gemini-3-flash-preview")]

def PREFERRED_MODELS : List String :=
  ["gemini-3-flash-preview", MODEL, "gemini-2.0-flash", "gemini-flash-latest"]

def MAX_TRANSIENT_RETRIES : Nat := 1

def THINKING_LEVELS : List String := ["minimal", "low", "medium", "high"]

/-! ## Model-name normalization (src/transcriber.py lines 138-142) -/

/-- Alias application: `MODEL_ALIASES.get(normalized, normalized)`. -/
def aliasApply (s : String) : String :=
  (MODEL_ALIASES.lookup s).getD s

/-- Translation of `Transcriber._normalize_model_name`:
`model_name.removeprefix("models/").strip()` followed by the alias lookup. -/
def normalizeModelName (s : String) : String :=
  aliasApply (String.mk (pyStrip (removePrefixL "models/".toList s.toList)))

/-! ## Error classification predicates (src/transcriber.py lines 212-239) -/

/-- Translation of `Transcriber._is_model_not_found_error`. -/
def isModelNotFoundError (msg : String) : Bool :=
  let m := pyLower msg
  containsSub "is not found for api version" m
    || (containsSub "404" m && containsSub "models/" m && containsSub "not found" m)

/-- Translation of `Transcriber._is_transient_api_error`. -/
def isTransientApiError (msg : String) : Bool :=
  let m := pyLower msg
  let transientPatterns : List String :=
    ["deadline expired", "timed out", "timeout",
     "temporarily unavailable", "service unavailable"]
  let hasHttpHint :=
    (["429", "500", "502", "503", "504"].any (fun t => hasBoundedToken t m))
      || containsSub "too many requests" m
  transientPatterns.any (fun p => containsSub p m) || hasHttpHint

/-- Translation of `Transcriber._is_thinking_level_unsupported_error`. -/
def isThinkingLevelUnsupportedError (msg : String) : Bool :=
  containsSub "thinking level is not supported" (pyLower msg)

/-- Modelled from the spec: `_is_cached_content_error` is exercised by the
repository tests (test_transcriber.py) but the function itself is missing from
src/; src/transcriber.py holds the superseded orchestrator variant without it.
Per the spec, a cache-invalid failure mentions a cache-content-entity term and
either a not-found/expired condition or a permission-denied condition; a bare
permission-denied without the cache entity does not qualify. -/
def isCachedContentError (msg : String) : Bool :=
  let m := pyLower msg
  containsSub "cached" m
    && (containsSub "not found" m || containsSub "expired" m
        || containsSub "permission_denied" m || containsSub "permission denied" m)

/-- The fault taxonomy of the error-classification layer. -/
inductive FaultKind where
  | ModelNotFound
  | Transient
  | ThinkingUnsupported
  | CacheInvalid
  | Fatal
deriving DecidableEq, Repr

/-- Modelled from the spec: the single classification entry point; the
individual predicates are the src/ ones above except the cache predicate. The
check order puts ThinkingUnsupported and CacheInvalid before the generic
Transient and ModelNotFound kinds, as the spec prescribes. -/
def classify (msg : String) : FaultKind :=
  if isThinkingLevelUnsupportedError msg then .ThinkingUnsupported
  else if isCachedContentError msg then .CacheInvalid
  else if isTransientApiError msg then .Transient
  else if isModelNotFoundError msg then .ModelNotFound
  else .Fatal

/-! ## Model candidates and resolution (src/transcriber.py lines 144-210) -/

/-- A provider model entry as returned by the live model-list call. -/
structure ModelInfo where
  name : String
  supportedActions : List String
deriving DecidableEq, Repr

/-- Translation of `Transcriber._build_model_candidates`; `modelEnvVar` is the
value of `VOICECODE_GEMINI_MODEL` (empty string when unset). -/
def buildModelCandidates (modelEnvVar : String) : List String :=
  let configuredModel := pyStripS modelEnvVar
  let base := if configuredModel ≠ "" then [normalizeModelName configuredModel] else []
  PREFERRED_MODELS.foldl (fun acc m => if acc.contains m then acc else acc ++ [m]) base

/-- Translation of `Transcriber._list_available_models`: keep entries that
support `generateContent` and have a non-empty name, normalized. -/
def listAvailableModels (models : List ModelInfo) : List String :=
  models.foldl
    (fun acc m =>
      if !(m.supportedActions.contains "generateContent") then acc
      else if m.name ≠ "" then acc ++ [normalizeModelName m.name] else acc)
    []

/-- Translation of `Transcriber._resolve_model_name`; `fetch` is the outcome of
the live model-list call (`none` models the call throwing). -/
def resolveModelName (modelEnvVar : String) (fetch : Option (List ModelInfo))
    (excluded : List String) : String :=
  let candidates := buildModelCandidates modelEnvVar
  let configuredRaw := pyStripS modelEnvVar
  let configuredModel := if configuredRaw ≠ "" then normalizeModelName configuredRaw else ""
  match fetch with
  | none =>
    if configuredModel ≠ "" ∧ !(excluded.contains configuredModel) then configuredModel
    else if !(excluded.contains MODEL) then MODEL
    else ""
  | some models =>
    let availableModels := listAvailableModels models
    match candidates.find? (fun c => availableModels.contains c && !(excluded.contains c)) with
    | some c => c
    | none =>
      match availableModels.find? (fun a => !(excluded.contains a)) with
      | some a => a
      | none => ""

/-! ## Configuration resolution (src/transcriber.py lines 96-111) -/

/-- Translation of `Transcriber._resolve_thinking_level` (the enum value is
kept as its lower-case name). -/
def resolveThinkingLevel (envVal : Option String) : String :=
  let raw := pyLower (pyStripS (envVal.getD DEFAULT_THINKING_LEVEL))
  if THINKING_LEVELS.contains raw then raw else DEFAULT_THINKING_LEVEL

/-- Translation of `Transcriber._resolve_prompt_cache_enabled`. -/
def resolvePromptCacheEnabled (envVal : Option String) : Bool :=
  let raw := pyLower (pyStripS (envVal.getD "true"))
  !(["0", "false", "off", "no"].contains raw)

/-! ## Prompt cache and request config (src/transcriber.py lines 241-285) -/

/-- The thinking directive carried by a request config. -/
inductive ThinkingDirective where
  | level (l : String)
  | budget (n : Nat)
deriving DecidableEq, Repr

/-- The request configuration assembled for one provider call. -/
structure GenerateContentConfig where
  cachedContent : Option String
  systemInstruction : Option String
  thinkingConfig : ThinkingDirective
  temperature : Nat
deriving DecidableEq, Repr

/-- Translation of `Transcriber._build_generate_config`; `cacheMap` is the
per-model prompt-cache map `_prompt_cache_name_by_model`. -/
def buildGenerateConfig (thinkingMode thinkingLevel : String)
    (cacheMap : List (String × String)) (modelName systemPrompt : String) :
    GenerateContentConfig :=
  let tc := if thinkingMode = "level" then ThinkingDirective.level thinkingLevel
            else ThinkingDirective.budget 0
  match cacheMap.lookup modelName with
  | some name => if name ≠ "" then ⟨some name, none, tc, 0⟩ else ⟨none, some systemPrompt, tc, 0⟩
  | none => ⟨none, some systemPrompt, tc, 0⟩

/-- Translation of `Transcriber._ensure_prompt_cache`; `createResult` is the
outcome of the cache-create call (`none` models an exception or a non-string
name, both absorbed by the except handler / isinstance check). -/
def ensurePromptCache (enable : Bool) (cacheMap : List (String × String))
    (model : String) (createResult : Option String) : List (String × String) :=
  if !enable then cacheMap
  else if (cacheMap.lookup model).isSome then cacheMap
  else
    match createResult with
    | some name => if name ≠ "" then cacheMap ++ [(model, name)] else cacheMap
    | none => cacheMap

/-- Modelled from the spec: `invalidate(model)` of the prompt-cache manager;
the invalidation step is exercised by the repository tests but its code is
missing from src/. It removes the cache entry for the model unconditionally. -/
def invalidatePromptCache (cacheMap : List (String × String)) (model : String) :
    List (String × String) :=
  cacheMap.filter (fun p => p.1 != model)

/-! ## Response text extraction (src/transcriber.py lines 113-136) -/

/-- One part of a response candidate content; `text` is `none` when the
attribute is missing or not a string. -/
structure RespPart where
  text : Option String
deriving DecidableEq, Repr

/-- The content of a response candidate. -/
structure RespContent where
  parts : Option (List RespPart)
deriving DecidableEq, Repr

/-- One response candidate. -/
structure RespCandidate where
  content : Option RespContent
deriving DecidableEq, Repr

/-- A provider response object. -/
structure Resp where
  text : Option String
  candidates : Option (List RespCandidate)
deriving DecidableEq, Repr

/-- One step of the inner loop of `_extract_response_text`: append the part
text when it is a string. -/
def partStep (a : List String) (p : RespPart) : List String :=
  match p.text with
  | some t => a ++ [t]
  | none => a

/-- The inner loop of `_extract_response_text` over the parts of one content. -/
def collectParts (ps : List RespPart) (acc : List String) : List String :=
  ps.foldl partStep acc

/-- One step of the outer loop of `_extract_response_text`: skip candidates
without content or parts. -/
def candStep (a : List String) (cand : RespCandidate) : List String :=
  match cand.content with
  | none => a
  | some ct =>
    match ct.parts with
    | none => a
    | some ps => if ps.isEmpty then a else collectParts ps a

/-- The outer loop of `_extract_response_text` over the candidates. -/
def collectCandidates (cs : List RespCandidate) (acc : List String) : List String :=
  cs.foldl candStep acc

/-- Translation of `Transcriber._extract_response_text`. -/
def extractResponseText (r : Resp) : String :=
  let direct := r.text.getD ""
  if direct ≠ "" then direct
  else
    match r.candidates with
    | none => ""
    | some cs =>
      if cs.isEmpty then ""
      else String.join (collectCandidates cs [])

/-- Declarative counterpart of the candidate walk: all text fragments under
candidates, in order, joined with no separator. Used to state that the
imperative accumulation extracts exactly these fragments. -/
def gatherCandidateTexts (r : Resp) : String :=
  String.join
    ((r.candidates.getD []).flatMap
      (fun cand =>
        ((cand.content.bind (fun ct => ct.parts)).getD []).filterMap
          (fun p => p.text)))

/-! ## Tag stripping (src/transcriber.py line 389) -/

/-- One pass of `re.sub(r"<[^>]+>", "", s)`: at each `<`, if a later `>` exists
with at least one character in between, the whole `<...>` run is removed and
scanning resumes after the `>`; otherwise the `<` is kept. -/
def stripTagsFuel : Nat → List Char → List Char
  | _, [] => []
  | 0, l => l
  | fuel + 1, c :: rest =>
    if c = '<' then
      match rest.findIdx? (fun d => d = '>') with
      | some i =>
        if 0 < i then stripTagsFuel fuel (rest.drop (i + 1))
        else c :: stripTagsFuel fuel rest
      | none => c :: stripTagsFuel fuel rest
    else c :: stripTagsFuel fuel rest

/-- The tag-removal scan, with enough fuel to consume the whole input. -/
def stripTagsGo (l : List Char) : List Char := stripTagsFuel l.length l

/-- The post-processing applied to the extracted text in `transcribe`:
`re.sub(r"<[^>]+>", "", raw_text).strip()`. -/
def postprocessText (s : String) : String :=
  pyStripS (String.mk (stripTagsGo s.toList))

/-! ## Retry engine -/

/-- Outcome of one run of the retry loop: the returned-or-raised result, the
index just past the last provider call consumed (so, with a start index of 0,
the number of provider calls made), and the thinking mode afterwards. -/
structure LoopResult where
  result : Except String Resp
  calls : Nat
  mode : String
deriving Repr

/-- Modelled from the spec: the bounded retry loop (`_retry_loop` in the
repository tests; src/transcriber.py lines 302-326 hold the superseded variant
`_generate_content_with_retry` without cache awareness). Per attempt: on a
ThinkingUnsupported failure while the mode is still level, flip the mode to
budget0 and return the outcome of exactly one immediate extra call; on a
Transient-classified failure with retries remaining, retry after backoff;
any other kind is raised at once. `outcomes` is the provider-call oracle,
indexed by call number. -/
def retryGo (maxR : Nat) (outcomes : Nat → Except String Resp) :
    Nat → String → Nat → Nat → Option String → LoopResult
  | 0, mode, _, idx, lastErr => ⟨Except.error (lastErr.getD ""), idx, mode⟩
  | fuel + 1, mode, attempt, idx, _ =>
    match outcomes idx with
    | Except.ok r => ⟨Except.ok r, idx + 1, mode⟩
    | Except.error e =>
      if mode = "level" ∧ classify e = FaultKind.ThinkingUnsupported then
        ⟨outcomes (idx + 1), idx + 2, "budget0"⟩
      else if classify e = FaultKind.Transient ∧ attempt < maxR then
        retryGo maxR outcomes fuel mode (attempt + 1) (idx + 1) (some e)
      else
        ⟨Except.error e, idx + 1, mode⟩

/-- The retry loop entered at attempt 0 with the configured retry bound. -/
def retryLoop (mode : String) (outcomes : Nat → Except String Resp) (idx : Nat) :
    LoopResult :=
  retryGo MAX_TRANSIENT_RETRIES outcomes (MAX_TRANSIENT_RETRIES + 1) mode 0 idx none

/-- Outcome of `_generate_content_with_retry`: result, next call index, and
the thinking mode and cache map afterwards. -/
structure OuterResult where
  result : Except String Resp
  calls : Nat
  mode : String
  cacheMap : List (String × String)
deriving Repr

/-- Modelled from the spec: the cache-aware `_generate_content_with_retry`
exercised by the repository tests but missing from src/. It runs the retry
loop once; on a CacheInvalid-classified failure it removes the cache entry of
the current model and runs the retry loop once more, returning that outcome. -/
def generateContentWithRetry (mode : String) (cacheMap : List (String × String))
    (modelName : String) (outcomes : Nat → Except String Resp) (idx : Nat) :
    OuterResult :=
  let r := retryLoop mode outcomes idx
  match r.result with
  | Except.ok resp => ⟨Except.ok resp, r.calls, r.mode, cacheMap⟩
  | Except.error e =>
    if classify e = FaultKind.CacheInvalid then
      let cacheMap2 := invalidatePromptCache cacheMap modelName
      let r2 := retryLoop r.mode outcomes r.calls
      ⟨r2.result, r2.calls, r2.mode, cacheMap2⟩
    else ⟨Except.error e, r.calls, r.mode, cacheMap⟩

/-! ## Session construction (src/transcriber.py lines 61-84) -/

/-- The mutable orchestration state owned by one Transcriber instance. -/
structure Session where
  apiKey : String
  modelName : String
  thinkingMode : String
  thinkingLevel : String
  enablePromptCache : Bool
  promptCacheTtl : String
  promptCache : List (String × String)
deriving DecidableEq, Repr

/-- The effective API key: the constructor argument if truthy, else the
`GOOGLE_API_KEY` environment value (`api_key or os.getenv(...)`). -/
def effectiveApiKey (apiKeyArg googleApiKeyEnv : Option String) : String :=
  match apiKeyArg with
  | some s => if s ≠ "" then s else googleApiKeyEnv.getD ""
  | none => googleApiKeyEnv.getD ""

/-- Translation of `Transcriber.__init__`; the Option parameters are the
constructor argument and environment values, `fetch` the live model-list
outcome and `cacheCreate` the cache-create outcome. Raises (returns
`Except.error`) only when no API key is available. -/
def initSession (apiKeyArg googleApiKeyEnv : Option String)
    (thinkingLevelEnv cacheEnableEnv cacheTtlEnv : Option String)
    (modelEnvVar : String) (fetch : Option (List ModelInfo))
    (cacheCreate : Option String) : Except String Session :=
  let apiKey := effectiveApiKey apiKeyArg googleApiKeyEnv
  if apiKey = "" then Except.error "GOOGLE_API_KEY is not set"
  else
    let thinkingLevel := resolveThinkingLevel thinkingLevelEnv
    let thinkingMode := "level"
    let enablePromptCache := resolvePromptCacheEnabled cacheEnableEnv
    let promptCacheTtl := cacheTtlEnv.getD DEFAULT_PROMPT_CACHE_TTL
    let modelName := resolveModelName modelEnvVar fetch []
    let promptCache := ensurePromptCache enablePromptCache [] modelName cacheCreate
    Except.ok ⟨apiKey, modelName, thinkingMode, thinkingLevel,
               enablePromptCache, promptCacheTtl, promptCache⟩

/-! ## transcribe (src/transcriber.py lines 328-397) -/

/-- The external collaborators one `transcribe` call interacts with. -/
structure TranscribeEnv where
  audioExists : Bool
  outcomes : Nat → Except String Resp
  fetch : Option (List ModelInfo)
  modelEnvVar : String
  cacheCreateOnFallback : Option String

/-- Translation of `Transcriber.transcribe`: returns the cleaned text, the
session state afterwards, and the number of provider calls consumed (the
elapsed wall-clock seconds of the Python pair are not modelled). Raises only
when the audio file is missing; every provider-side failure is absorbed into
an `Except.ok` with empty text. -/
def transcribe (env : TranscribeEnv) (st : Session) :
    Except String (String × Session × Nat) :=
  if !env.audioExists then Except.error "Audio file not found"
  else
    let r1 := generateContentWithRetry st.thinkingMode st.promptCache st.modelName
                env.outcomes 0
    let st1 : Session := ⟨st.apiKey, st.modelName, r1.mode, st.thinkingLevel,
                          st.enablePromptCache, st.promptCacheTtl, r1.cacheMap⟩
    match r1.result with
    | Except.ok resp =>
      Except.ok (postprocessText (extractResponseText resp), st1, r1.calls)
    | Except.error e =>
      if isModelNotFoundError e || isTransientApiError e then
        let fallbackModel := resolveModelName env.modelEnvVar env.fetch [st1.modelName]
        if fallbackModel ≠ "" then
          let cache2 := ensurePromptCache st1.enablePromptCache r1.cacheMap
                          fallbackModel env.cacheCreateOnFallback
          let r2 := generateContentWithRetry r1.mode cache2 fallbackModel
                      env.outcomes r1.calls
          let st2 : Session := ⟨st.apiKey, fallbackModel, r2.mode, st.thinkingLevel,
                                st.enablePromptCache, st.promptCacheTtl, r2.cacheMap⟩
          match r2.result with
          | Except.ok resp =>
            Except.ok (postprocessText (extractResponseText resp), st2, r2.calls)
          | Except.error _ => Except.ok ("", st2, r2.calls)
        else Except.ok ("", st1, r1.calls)
      else Except.ok ("", st1, r1.calls)

/-! ## Helper lemmas -/

theorem dropWhile_self (p : Char → Bool) (l : List Char) :
    List.dropWhile p (List.dropWhile p l) = List.dropWhile p l := by
  induction l with
  | nil => rfl
  | cons c t ih =>
    by_cases h : p c
    · simp only [List.dropWhile_cons, h, if_true]
      exact ih
    · simp [List.dropWhile_cons, h]

theorem ldropWS_idem (l : List Char) : ldropWS (ldropWS l) = ldropWS l :=
  dropWhile_self wsB l

theorem rdropWS_idem (l : List Char) : rdropWS (rdropWS l) = rdropWS l := by
  unfold rdropWS
  rw [List.reverse_reverse, dropWhile_self]

theorem ldropWS_eq_nil_iff (l : List Char) : ldropWS l = [] ↔ ∀ c ∈ l, wsB c := by
  unfold ldropWS
  exact List.dropWhile_eq_nil_iff

theorem rdropWS_eq_nil_iff (l : List Char) : rdropWS l = [] ↔ ∀ c ∈ l, wsB c := by
  unfold rdropWS
  rw [List.reverse_eq_nil_iff, List.dropWhile_eq_nil_iff]
  constructor
  · intro h c hc
    exact h c (List.mem_reverse.mpr hc)
  · intro h c hc
    exact h c (List.mem_reverse.mp hc)

theorem rdropWS_cons (c : Char) (t : List Char) :
    rdropWS (c :: t) =
      if rdropWS t = [] then (if wsB c then [] else [c]) else c :: rdropWS t := by
  unfold rdropWS
  rw [List.reverse_cons, List.dropWhile_append]
  by_cases h : (List.dropWhile wsB t.reverse).isEmpty
  · rw [if_pos h]
    have h2 : List.dropWhile wsB t.reverse = [] := List.isEmpty_iff.mp h
    rw [h2]
    by_cases hc : wsB c
    · simp [List.dropWhile_cons, hc]
    · simp [List.dropWhile_cons, hc]
  · rw [if_neg h]
    have h2 : List.dropWhile wsB t.reverse ≠ [] := fun hh => h (by simp [hh])
    have h3 : (List.dropWhile wsB t.reverse).reverse ≠ [] := by
      simpa [List.reverse_eq_nil_iff] using h2
    rw [if_neg h3, List.reverse_append]
    simp

theorem ldropWS_rdropWS (l : List Char) :
    ldropWS (rdropWS l) = rdropWS (ldropWS l) := by
  induction l with
  | nil => rfl
  | cons c t ih =>
    rw [rdropWS_cons]
    by_cases hrt : rdropWS t = []
    · rw [if_pos hrt]
      have hall : ∀ x ∈ t, wsB x := (rdropWS_eq_nil_iff t).mp hrt
      have hlt : ldropWS t = [] := (ldropWS_eq_nil_iff t).mpr hall
      by_cases hc : wsB c
      · rw [if_pos hc]
        have hl : ldropWS (c :: t) = [] := by
          unfold ldropWS at hlt ⊢
          simp [List.dropWhile_cons, hc, hlt]
        rw [hl]
        rfl
      · rw [if_neg hc]
        have hl : ldropWS (c :: t) = c :: t := by
          unfold ldropWS
          simp [List.dropWhile_cons, hc]
        rw [hl, rdropWS_cons, if_pos hrt, if_neg hc]
        unfold ldropWS
        simp [List.dropWhile_cons, hc]
    · rw [if_neg hrt]
      by_cases hc : wsB c
      · have h1 : ldropWS (c :: rdropWS t) = ldropWS (rdropWS t) := by
          unfold ldropWS
          simp [List.dropWhile_cons, hc]
        have h2 : ldropWS (c :: t) = ldropWS t := by
          unfold ldropWS
          simp [List.dropWhile_cons, hc]
        rw [h1, h2, ih]
      · have h1 : ldropWS (c :: rdropWS t) = c :: rdropWS t := by
          unfold ldropWS
          simp [List.dropWhile_cons, hc]
        have h2 : ldropWS (c :: t) = c :: t := by
          unfold ldropWS
          simp [List.dropWhile_cons, hc]
        rw [h1, h2, rdropWS_cons, if_neg hrt]

theorem pyStrip_idem (l : List Char) : pyStrip (pyStrip l) = pyStrip l := by
  unfold pyStrip
  rw [ldropWS_rdropWS (ldropWS l), ldropWS_idem, rdropWS_idem]

theorem aliasApply_idem (s : String) : aliasApply (aliasApply s) = aliasApply s := by
  by_cases h : s = "gemini-3.0-flash"
  · subst h
    rfl
  · have hb : (s == "gemini-3.0-flash") = false := beq_eq_false_iff_ne.mpr h
    have hl : MODEL_ALIASES.lookup s = none := by
      simp only [List.lookup, MODEL_ALIASES, hb]
    simp [aliasApply, hl]

theorem normalizeModelName_idem (x : String)
    (h : "models/".toList.isPrefixOf (normalizeModelName x).toList = false) :
    normalizeModelName (normalizeModelName x) = normalizeModelName x := by
  by_cases hk : String.mk (pyStrip (removePrefixL "models/".toList x.toList))
      = "gemini-3.0-flash"
  · have hx : normalizeModelName x = "gemini-3-flash-preview" := by
      unfold normalizeModelName
      rw [hk]
      rfl
    rw [hx]
    rfl
  · have hb : (String.mk (pyStrip (removePrefixL "models/".toList x.toList))
        == "gemini-3.0-flash") = false := beq_eq_false_iff_ne.mpr hk
    have hlook : MODEL_ALIASES.lookup
        (String.mk (pyStrip (removePrefixL "models/".toList x.toList))) = none := by
      simp only [List.lookup, MODEL_ALIASES, hb]
    have hx : normalizeModelName x
        = String.mk (pyStrip (removePrefixL "models/".toList x.toList)) := by
      unfold normalizeModelName aliasApply
      rw [hlook]
      rfl
    rw [hx] at h ⊢
    have htl : (String.mk (pyStrip (removePrefixL "models/".toList x.toList))).toList
        = pyStrip (removePrefixL "models/".toList x.toList) := rfl
    rw [htl] at h
    unfold normalizeModelName
    rw [htl, removePrefixL, if_neg (by rw [h]; simp), pyStrip_idem]
    unfold aliasApply
    rw [hlook]
    rfl

theorem lookup_invalidate (cacheMap : List (String × String)) (model : String) :
    (invalidatePromptCache cacheMap model).lookup model = none := by
  induction cacheMap with
  | nil => rfl
  | cons p t ih =>
    unfold invalidatePromptCache at ih ⊢
    by_cases h : p.1 = model
    · simp [List.filter_cons, h, ih]
    · simp only [List.filter_cons]
      rw [if_pos (by simp [h])]
      rw [List.lookup]
      have : (model == p.1) = false := by
        simp [Ne.symm h]
      rw [this]
      exact ih

theorem collectParts_eq (ps : List RespPart) (acc : List String) :
    collectParts ps acc = acc ++ ps.filterMap (fun p => p.text) := by
  induction ps generalizing acc with
  | nil => simp [collectParts]
  | cons p t ih =>
    rw [collectParts, List.foldl_cons,
        show List.foldl partStep (partStep acc p) t = collectParts t (partStep acc p) from rfl,
        ih]
    cases hp : p.text with
    | some s => simp [partStep, hp, List.filterMap_cons]
    | none => simp [partStep, hp, List.filterMap_cons]

theorem collectCandidates_eq (cs : List RespCandidate) (acc : List String) :
    collectCandidates cs acc
      = acc ++ cs.flatMap (fun cand =>
          ((cand.content.bind (fun ct => ct.parts)).getD []).filterMap
            (fun p => p.text)) := by
  induction cs generalizing acc with
  | nil => simp [collectCandidates]
  | cons c t ih =>
    rw [collectCandidates, List.foldl_cons,
        show List.foldl candStep (candStep acc c) t = collectCandidates t (candStep acc c) from rfl,
        ih]
    cases hc : c.content with
    | none => simp [candStep, hc]
    | some ct =>
      cases hp : ct.parts with
      | none => simp [candStep, hc, hp]
      | some ps =>
        by_cases he : ps.isEmpty
        · have hps : ps = [] := List.isEmpty_iff.mp he
          simp [candStep, hc, hp, hps]
        · rw [show candStep acc c = collectParts ps acc by
                simp only [candStep, hc, hp, if_neg he]]
          rw [collectParts_eq]
          simp [hc, hp]

theorem retryGo_budget0_mode (maxR : Nat) (outs : Nat → Except String Resp) :
    ∀ (fuel attempt idx : Nat) (le : Option String),
      (retryGo maxR outs fuel "budget0" attempt idx le).mode = "budget0" := by
  intro fuel
  induction fuel with
  | zero => intro attempt idx le; rfl
  | succ f ih =>
    intro attempt idx le
    simp only [retryGo]
    cases houts : outs idx with
    | ok r => rfl
    | error e =>
      dsimp only
      by_cases h1 : ("budget0" : String) = "level" ∧ classify e = FaultKind.ThinkingUnsupported
      · exact absurd h1.1 (by decide)
      · rw [if_neg h1]
        by_cases h2 : classify e = FaultKind.Transient ∧ attempt < maxR
        · rw [if_pos h2]
          exact ih _ _ _
        · rw [if_neg h2]

theorem retryGo_allErr (maxR : Nat) (outs : Nat → Except String Resp)
    (h : ∀ i, ∃ m, outs i = Except.error m) :
    ∀ (fuel : Nat) (mode : String) (attempt idx : Nat) (le : Option String),
      ∃ m, (retryGo maxR outs fuel mode attempt idx le).result = Except.error m := by
  intro fuel
  induction fuel with
  | zero => intro mode attempt idx le; exact ⟨le.getD "", rfl⟩
  | succ f ih =>
    intro mode attempt idx le
    obtain ⟨m, hm⟩ := h idx
    simp only [retryGo, hm]
    by_cases h1 : mode = "level" ∧ classify m = FaultKind.ThinkingUnsupported
    · rw [if_pos h1]
      obtain ⟨m2, hm2⟩ := h (idx + 1)
      exact ⟨m2, by simp [hm2]⟩
    · rw [if_neg h1]
      by_cases h2 : classify m = FaultKind.Transient ∧ attempt < maxR
      · rw [if_pos h2]
        exact ih _ _ _ _
      · rw [if_neg h2]
        exact ⟨m, rfl⟩

theorem retryLoop_allErr (outs : Nat → Except String Resp)
    (h : ∀ i, ∃ m, outs i = Except.error m) (mode : String) (idx : Nat) :
    ∃ m, (retryLoop mode outs idx).result = Except.error m :=
  retryGo_allErr MAX_TRANSIENT_RETRIES outs h (MAX_TRANSIENT_RETRIES + 1) mode 0 idx none

theorem generateContentWithRetry_allErr (outs : Nat → Except String Resp)
    (h : ∀ i, ∃ m, outs i = Except.error m) (mode : String)
    (cacheMap : List (String × String)) (modelName : String) (idx : Nat) :
    ∃ m, (generateContentWithRetry mode cacheMap modelName outs idx).result
      = Except.error m := by
  obtain ⟨m1, hm1⟩ := retryLoop_allErr outs h mode idx
  simp only [generateContentWithRetry]
  rw [hm1]
  dsimp only
  by_cases hc : classify m1 = FaultKind.CacheInvalid
  · rw [if_pos hc]
    obtain ⟨m2, hm2⟩ := retryLoop_allErr outs h (retryLoop mode outs idx).mode
      (retryLoop mode outs idx).calls
    exact ⟨m2, hm2⟩
  · rw [if_neg hc]
    exact ⟨m1, rfl⟩

theorem retryGo_step_ok (maxR : Nat) (outs : Nat → Except String Resp)
    (f : Nat) (mode : String) (attempt idx : Nat) (le : Option String) (r : Resp)
    (h : outs idx = Except.ok r) :
    retryGo maxR outs (f + 1) mode attempt idx le
      = ⟨Except.ok r, idx + 1, mode⟩ := by
  simp only [retryGo, h]

theorem retryGo_step_thinking (maxR : Nat) (outs : Nat → Except String Resp)
    (f : Nat) (attempt idx : Nat) (le : Option String) (e : String)
    (h : outs idx = Except.error e)
    (hcl : classify e = FaultKind.ThinkingUnsupported) :
    retryGo maxR outs (f + 1) "level" attempt idx le
      = ⟨outs (idx + 1), idx + 2, "budget0"⟩ := by
  simp only [retryGo, h]
  simp [hcl]

theorem retryGo_step_retry (maxR : Nat) (outs : Nat → Except String Resp)
    (f : Nat) (mode : String) (attempt idx : Nat) (le : Option String) (e : String)
    (h : outs idx = Except.error e)
    (hth : ¬(mode = "level" ∧ classify e = FaultKind.ThinkingUnsupported))
    (htr : classify e = FaultKind.Transient) (hlt : attempt < maxR) :
    retryGo maxR outs (f + 1) mode attempt idx le
      = retryGo maxR outs f mode (attempt + 1) (idx + 1) (some e) := by
  simp only [retryGo, h]
  rw [if_neg hth, if_pos ⟨htr, hlt⟩]

theorem retryGo_step_raise (maxR : Nat) (outs : Nat → Except String Resp)
    (f : Nat) (mode : String) (attempt idx : Nat) (le : Option String) (e : String)
    (h : outs idx = Except.error e)
    (hth : ¬(mode = "level" ∧ classify e = FaultKind.ThinkingUnsupported))
    (hnr : ¬(classify e = FaultKind.Transient ∧ attempt < maxR)) :
    retryGo maxR outs (f + 1) mode attempt idx le
      = ⟨Except.error e, idx + 1, mode⟩ := by
  simp only [retryGo, h]
  rw [if_neg hth, if_neg hnr]

/-! ## Claim theorems -/

/-- C2 (counterexample): model-name normalization is not idempotent for every
string; on `"models/models/x"` the first pass removes only one `models/`
prefix, so a second pass changes the result again. -/
theorem normalize_not_idem_counterexample :
    normalizeModelName (normalizeModelName "models/models/x")
      ≠ normalizeModelName "models/models/x" := by
  decide

/-- C2 (amended): normalization is idempotent for every model-name string
whose normalized form does not itself begin with `models/` (in particular for
every name without a doubled prefix), and the alias mapping is applied exactly
once: applying it to an already-mapped name is the identity. -/
theorem normalize_idem_amended :
    (∀ x : String,
        "models/".toList.isPrefixOf (normalizeModelName x).toList = false →
        normalizeModelName (normalizeModelName x) = normalizeModelName x)
    ∧ (∀ s : String, aliasApply (aliasApply s) = aliasApply s) :=
  ⟨normalizeModelName_idem, aliasApply_idem⟩

/-- C2 (witness): the amended idempotence at the concrete inputs
`"models/ gemini-2.5-flash"` and the alias key `"gemini-3.0-flash"`. -/
theorem normalize_idem_amended_witness :
    normalizeModelName (normalizeModelName "models/ gemini-2.5-flash")
      = normalizeModelName "models/ gemini-2.5-flash"
    ∧ aliasApply (aliasApply "gemini-3.0-flash") = aliasApply "gemini-3.0-flash" :=
  ⟨normalize_idem_amended.1 "models/ gemini-2.5-flash" (by decide),
   normalize_idem_amended.2 "gemini-3.0-flash"⟩

/-- C9: prompt caching is enabled iff the stripped, lowercased environment
value is not one of `0`, `false`, `off`, `no`; an absent value defaults to
enabled, and any other string (for example `disabled`, the empty string, or
`DISABLED`) also enables caching, while for example `" OFF "` disables it. -/
theorem promptCacheEnabled_iff :
    (∀ v : Option String,
        resolvePromptCacheEnabled v = false
          ↔ (pyLower (pyStripS (v.getD "true")) = "0"
             ∨ pyLower (pyStripS (v.getD "true")) = "false"
             ∨ pyLower (pyStripS (v.getD "true")) = "off"
             ∨ pyLower (pyStripS (v.getD "true")) = "no"))
    ∧ resolvePromptCacheEnabled none = true
    ∧ resolvePromptCacheEnabled (some "disabled") = true
    ∧ resolvePromptCacheEnabled (some "") = true
    ∧ resolvePromptCacheEnabled (some "DISABLED") = true
    ∧ resolvePromptCacheEnabled (some " OFF ") = false
    ∧ resolvePromptCacheEnabled (some "0") = false := by
  refine ⟨?_, by decide, by decide, by decide, by decide, by decide, by decide⟩
  intro v
  simp only [resolvePromptCacheEnabled]
  simp
  tauto

/-- C8: response-text extraction prefers a non-empty top-level text field;
otherwise it returns exactly the in-order, separator-free concatenation of all
text fragments under the candidate/content/parts structure, and the empty
string when that structure is missing or empty; the extracted text then has
angle-bracket tag substrings removed and surrounding whitespace stripped, so
a tagged, padded response normalizes to its payload. -/
theorem extractResponseText_spec :
    (∀ (r : Resp) (t : String), r.text = some t → t ≠ "" → extractResponseText r = t)
    ∧ (∀ r : Resp, (r.text = none ∨ r.text = some "") →
        extractResponseText r = gatherCandidateTexts r)
    ∧ extractResponseText ⟨none, none⟩ = ""
    ∧ extractResponseText ⟨some "", some []⟩ = ""
    ∧ postprocessText (extractResponseText ⟨some "  <output>結果</output>  \n", none⟩)
        = "結果" := by
  refine ⟨?_, ?_, by decide, by decide, by decide⟩
  · intro r t h1 h2
    simp [extractResponseText, h1, h2]
  · intro r h
    have hdirect : r.text.getD "" = "" := by
      rcases h with h | h <;> simp [h]
    unfold extractResponseText
    rw [hdirect, if_neg (by simp)]
    cases hc : r.candidates with
    | none => simp [gatherCandidateTexts, hc, String.join]
    | some cs =>
      dsimp only
      by_cases he : cs.isEmpty
      · have hcs : cs = [] := List.isEmpty_iff.mp he
        simp [gatherCandidateTexts, hc, hcs, String.join]
      · rw [if_neg he, collectCandidates_eq]
        simp [gatherCandidateTexts, hc]

/-- C8 (witness): extraction at a concrete response with a direct text field,
and at a concrete response whose text is gathered from the parts. -/
theorem extractResponseText_spec_witness :
    extractResponseText ⟨some "direct", none⟩ = "direct"
    ∧ extractResponseText
        ⟨none, some [⟨some ⟨some [⟨some "a"⟩, ⟨none⟩, ⟨some "b"⟩]⟩⟩]⟩
      = gatherCandidateTexts
        ⟨none, some [⟨some ⟨some [⟨some "a"⟩, ⟨none⟩, ⟨some "b"⟩]⟩⟩]⟩ :=
  ⟨extractResponseText_spec.1 _ "direct" rfl (by decide),
   extractResponseText_spec.2.1 _ (Or.inl rfl)⟩

/-- C7: classification is total and deterministic (a function into a single
FaultKind), checks ThinkingUnsupported first and CacheInvalid before the
generic Transient and ModelNotFound kinds (a message matching both the cache
pattern and a transient pattern is CacheInvalid, not Transient), and agrees
with the documented message table for the cache predicate. -/
theorem classify_total_precedence :
    (∀ m : String, ∃! k, classify m = k)
    ∧ (∀ m : String, isThinkingLevelUnsupportedError m = true →
        classify m = FaultKind.ThinkingUnsupported)
    ∧ (∀ m : String, isThinkingLevelUnsupportedError m = false →
        isCachedContentError m = true → classify m = FaultKind.CacheInvalid)
    ∧ (∀ m : String, isThinkingLevelUnsupportedError m = false →
        isCachedContentError m = true → isTransientApiError m = true →
        classify m ≠ FaultKind.Transient)
    ∧ classify "504 deadline expired: cachedcontent not found" = FaultKind.CacheInvalid
    ∧ classify "504 deadline expired" = FaultKind.Transient
    ∧ classify "models/foo is not found for api version v1beta" = FaultKind.ModelNotFound
    ∧ classify "invalid audio payload" = FaultKind.Fatal
    ∧ isCachedContentError "403 PERMISSION_DENIED: CachedContent not found" = true
    ∧ isCachedContentError "CachedContent not found for API version v1beta" = true
    ∧ isCachedContentError "PERMISSION_DENIED: cached content expired" = true
    ∧ isCachedContentError "permission_denied something about cached resource" = true
    ∧ isCachedContentError "404 model not found" = false
    ∧ isCachedContentError "500 internal server error" = false
    ∧ isCachedContentError "PERMISSION_DENIED: quota exceeded" = false := by
  refine ⟨?_, ?_, ?_, ?_, by decide, by decide, by decide, by decide, by decide,
    by decide, by decide, by decide, by decide, by decide, by decide⟩
  · intro m
    exact ⟨classify m, rfl, fun y hy => hy.symm⟩
  · intro m h
    simp [classify, h]
  · intro m h1 h2
    simp [classify, h1, h2]
  · intro m h1 h2 h3
    simp [classify, h1, h2]

/-- C7 (witness): the precedence statements at concrete messages, including a
message matching both the cache-invalid and the transient patterns. -/
theorem classify_total_precedence_witness :
    classify "thinking level is not supported here" = FaultKind.ThinkingUnsupported
    ∧ classify "504 cachedcontent not found" = FaultKind.CacheInvalid
    ∧ classify "504 cachedcontent not found" ≠ FaultKind.Transient :=
  ⟨classify_total_precedence.2.1 _ (by decide),
   classify_total_precedence.2.2.1 _ (by decide) (by decide),
   classify_total_precedence.2.2.2.1 _ (by decide) (by decide) (by decide)⟩

/-- The live model list of the C5 scenario. -/
def liveTwoModels : List ModelInfo :=
  [⟨"gemini-3-flash-preview", ["generateContent"]⟩,
   ⟨"gemini-2.5-flash", ["generateContent"]⟩]

/-- C5: on a successful live-model fetch, resolution returns the first
candidate (override first, then the preferred list, deduplicated) that is both
live-available and not excluded; in particular, with live list
`gemini-3-flash-preview, gemini-2.5-flash` and no override, no exclusion gives
the preview model and excluding the preview model gives `gemini-2.5-flash`. -/
theorem resolveModel_first_match :
    (∀ (envVar : String) (ms : List ModelInfo) (excluded : List String) (c : String),
        (buildModelCandidates envVar).find?
            (fun cand => (listAvailableModels ms).contains cand
              && !(excluded.contains cand)) = some c →
        resolveModelName envVar (some ms) excluded = c)
    ∧ resolveModelName "" (some liveTwoModels) [] = "gemini-3-flash-preview"
    ∧ resolveModelName "" (some liveTwoModels) ["gemini-3-flash-preview"]
        = "gemini-2.5-flash" := by
  refine ⟨?_, by decide, by decide⟩
  intro envVar ms excluded c hfind
  simp only [resolveModelName]
  rw [hfind]

/-- C5 (witness): the first-match rule at a configured override that is live
and not excluded. -/
theorem resolveModel_first_match_witness :
    resolveModelName "" (some liveTwoModels) ["gemini-3-flash-preview", "x"]
      = "gemini-2.5-flash" :=
  resolveModel_first_match.1 "" liveTwoModels ["gemini-3-flash-preview", "x"]
    "gemini-2.5-flash" (by decide)

/-- C10: when the live list was fetched but every candidate is excluded or
unavailable and every available model is excluded, resolution returns the
empty string rather than raising; likewise when the fetch failed and both the
override and the default model are excluded; and session construction still
succeeds with the current model set to the empty string. -/
theorem resolveModel_empty_and_init_ok :
    (∀ (envVar : String) (ms : List ModelInfo) (excluded : List String),
        (∀ c ∈ buildModelCandidates envVar,
            (listAvailableModels ms).contains c = false
            ∨ excluded.contains c = true) →
        (∀ a ∈ listAvailableModels ms, excluded.contains a = true) →
        resolveModelName envVar (some ms) excluded = "")
    ∧ (∀ (envVar : String) (excluded : List String),
        excluded.contains (normalizeModelName (pyStripS envVar)) = true →
        excluded.contains MODEL = true →
        resolveModelName envVar none excluded = "")
    ∧ initSession (some "key") none none none none ""
        (some [⟨"models/gemini-2.5-flash", ["embedContent"]⟩]) none
      = Except.ok ⟨"key", "", "level", "minimal", true, "3600s", []⟩ := by
  refine ⟨?_, ?_, by rfl⟩
  · intro envVar ms excluded h1 h2
    simp only [resolveModelName]
    have hf1 : (buildModelCandidates envVar).find?
        (fun c => (listAvailableModels ms).contains c && !(excluded.contains c))
        = none := by
      rw [List.find?_eq_none]
      intro x hx hb
      rw [Bool.and_eq_true] at hb
      rcases h1 x hx with h | h
      · rw [h] at hb
        exact absurd hb.1 (by simp)
      · rw [h] at hb
        simp at hb
    have hf2 : (listAvailableModels ms).find? (fun a => !(excluded.contains a))
        = none := by
      rw [List.find?_eq_none]
      intro x hx hb
      rw [h2 x hx] at hb
      simp at hb
    rw [hf1]
    dsimp only
    rw [hf2]
  · intro envVar excluded h1 h2
    have hm : MODEL ∈ excluded := by simpa using h2
    have hmem : normalizeModelName (pyStripS envVar) ∈ excluded := by simpa using h1
    by_cases hc : pyStripS envVar = ""
    · simp [resolveModelName, hc, hm]
    · simp [resolveModelName, hc, hm, hmem]

/-- C10 (witness): resolution returns the empty string at a concrete
all-excluded live list and at a concrete failed fetch with override and
default excluded. -/
theorem resolveModel_empty_witness :
    resolveModelName "" (some [⟨"models/gemini-2.5-flash", ["generateContent"]⟩])
        ["gemini-2.5-flash"] = ""
    ∧ resolveModelName "gemini-2.0-flash" none
        ["gemini-2.0-flash", "gemini-2.5-flash"] = "" :=
  ⟨resolveModel_empty_and_init_ok.1 _ _ _ (by decide) (by decide),
   resolveModel_empty_and_init_ok.2.1 _ _ (by decide) (by decide)⟩

/-- C3: with the configured bound (`MAX_TRANSIENT_RETRIES = 1`), one
Transient-classified failure followed by success makes exactly 2 provider
calls and returns the success; all-Transient failures make exactly
`MAX_TRANSIENT_RETRIES + 1` calls and raise the last attempt error (the
original error when every attempt fails identically); and a failure
classified ModelNotFound, CacheInvalid or Fatal is raised after exactly one
call, never retried inside the loop. -/
theorem retryEngine_call_counts (mode : String)
    (outcomes : Nat → Except String Resp) :
    (∀ (e : String) (r : Resp), outcomes 0 = Except.error e →
        classify e = FaultKind.Transient → outcomes 1 = Except.ok r →
        retryLoop mode outcomes 0 = ⟨Except.ok r, 2, mode⟩)
    ∧ (∀ e : String, outcomes 0 = Except.error e → outcomes 1 = Except.error e →
        classify e = FaultKind.Transient →
        retryLoop mode outcomes 0
          = ⟨Except.error e, MAX_TRANSIENT_RETRIES + 1, mode⟩)
    ∧ (∀ e : String, outcomes 0 = Except.error e →
        (classify e = FaultKind.ModelNotFound ∨ classify e = FaultKind.CacheInvalid
          ∨ classify e = FaultKind.Fatal) →
        retryLoop mode outcomes 0 = ⟨Except.error e, 1, mode⟩) := by
  refine ⟨?_, ?_, ?_⟩
  · intro e r h0 hcl h1
    have hth : ¬(mode = "level" ∧ classify e = FaultKind.ThinkingUnsupported) := by
      rintro ⟨-, hk⟩
      rw [hcl] at hk
      exact absurd hk (by decide)
    have s1 := retryGo_step_retry 1 outcomes 1 mode 0 0 none e h0 hth hcl (by decide)
    have s2 := retryGo_step_ok 1 outcomes 0 mode 1 1 (some e) r h1
    show retryGo 1 outcomes (1 + 1) mode 0 0 none = _
    rw [s1]
    exact s2
  · intro e h0 h1 hcl
    have hth : ¬(mode = "level" ∧ classify e = FaultKind.ThinkingUnsupported) := by
      rintro ⟨-, hk⟩
      rw [hcl] at hk
      exact absurd hk (by decide)
    have hnr : ¬(classify e = FaultKind.Transient ∧ 1 < 1) := by
      rintro ⟨-, hlt⟩
      exact absurd hlt (by decide)
    have s1 := retryGo_step_retry 1 outcomes 1 mode 0 0 none e h0 hth hcl (by decide)
    have s2 := retryGo_step_raise 1 outcomes 0 mode 1 1 (some e) e h1 hth hnr
    show retryGo 1 outcomes (1 + 1) mode 0 0 none = _
    rw [s1]
    exact s2
  · intro e h0 hk
    have hth : ¬(mode = "level" ∧ classify e = FaultKind.ThinkingUnsupported) := by
      rintro ⟨-, hko⟩
      rcases hk with h | h | h <;>
        (rw [hko] at h; exact absurd h (by decide))
    have hnr : ¬(classify e = FaultKind.Transient ∧ 0 < 1) := by
      rintro ⟨hko, -⟩
      rcases hk with h | h | h <;>
        (rw [hko] at h; exact absurd h (by decide))
    exact retryGo_step_raise 1 outcomes 1 mode 0 0 none e h0 hth hnr

/-- A concrete success response used by the loop witnesses. -/
def respOk : Resp := ⟨some "ok", none⟩

/-- Outcomes: a transient failure, then success. -/
def outTransientOk : Nat → Except String Resp :=
  fun i => if i = 0 then Except.error "timeout" else Except.ok respOk

/-- Outcomes: every call fails with a transient message. -/
def outTransientAll : Nat → Except String Resp :=
  fun _ => Except.error "504 service unavailable"

/-- Outcomes: every call fails with a cache-invalid message. -/
def outCacheErr : Nat → Except String Resp :=
  fun _ => Except.error "403 permission_denied: cachedcontent not found"

/-- C3 (witness): the three counting statements at concrete outcome streams. -/
theorem retryEngine_call_counts_witness :
    retryLoop "level" outTransientOk 0 = ⟨Except.ok respOk, 2, "level"⟩
    ∧ retryLoop "level" outTransientAll 0
        = ⟨Except.error "504 service unavailable", MAX_TRANSIENT_RETRIES + 1, "level"⟩
    ∧ retryLoop "level" outCacheErr 0
        = ⟨Except.error "403 permission_denied: cachedcontent not found", 1, "level"⟩ :=
  ⟨(retryEngine_call_counts "level" outTransientOk).1 "timeout" respOk rfl
      (by decide) rfl,
   (retryEngine_call_counts "level" outTransientAll).2.1
      "504 service unavailable" rfl rfl (by decide),
   (retryEngine_call_counts "level" outCacheErr).2.2
      "403 permission_denied: cachedcontent not found" rfl
      (Or.inr (Or.inl (by decide)))⟩

/-- C4: a ThinkingUnsupported-classified failure in level mode flips the mode
to budget0 and returns the outcome of exactly one immediate extra call (at any
attempt index, so not counted against the transient-retry budget); once the
mode is budget0 neither the retry loop nor the cache-aware wrapper ever
returns to level mode. -/
theorem thinkingUnsupported_oneshot (maxR : Nat)
    (outcomes : Nat → Except String Resp) :
    (∀ (f attempt idx : Nat) (le : Option String) (e : String),
        outcomes idx = Except.error e →
        classify e = FaultKind.ThinkingUnsupported →
        retryGo maxR outcomes (f + 1) "level" attempt idx le
          = ⟨outcomes (idx + 1), idx + 2, "budget0"⟩)
    ∧ (∀ (f attempt idx : Nat) (le : Option String),
        (retryGo maxR outcomes f "budget0" attempt idx le).mode = "budget0")
    ∧ (∀ (cacheMap : List (String × String)) (modelName : String) (idx : Nat),
        (generateContentWithRetry "budget0" cacheMap modelName outcomes idx).mode
          = "budget0") := by
  refine ⟨?_, retryGo_budget0_mode maxR outcomes, ?_⟩
  · intro f attempt idx le e h hcl
    exact retryGo_step_thinking maxR outcomes f attempt idx le e h hcl
  · intro cacheMap modelName idx
    have hm : ∀ j, (retryLoop "budget0" outcomes j).mode = "budget0" := fun j =>
      retryGo_budget0_mode MAX_TRANSIENT_RETRIES outcomes
        (MAX_TRANSIENT_RETRIES + 1) 0 j none
    simp only [generateContentWithRetry]
    cases hr : (retryLoop "budget0" outcomes idx).result with
    | ok r =>
      dsimp only
      exact hm idx
    | error e =>
      dsimp only
      by_cases hc : classify e = FaultKind.CacheInvalid
      · rw [if_pos hc]
        dsimp only
        rw [hm idx]
        exact hm _
      · rw [if_neg hc]
        exact hm idx

/-- Outcomes: a thinking-level-unsupported failure, then success. -/
def outThinkOk : Nat → Except String Resp :=
  fun i => if i = 0
    then Except.error "Thinking level is not supported for this model."
    else Except.ok respOk

/-- C4 (witness): the one-shot downgrade and the absorbing budget0 mode at a
concrete outcome stream. -/
theorem thinkingUnsupported_oneshot_witness :
    retryGo MAX_TRANSIENT_RETRIES outThinkOk (0 + 1) "level" 0 0 none
      = ⟨outThinkOk 1, 2, "budget0"⟩
    ∧ (retryGo MAX_TRANSIENT_RETRIES outThinkOk 5 "budget0" 3 7 none).mode
        = "budget0"
    ∧ (generateContentWithRetry "budget0" [] "m" outThinkOk 0).mode = "budget0" :=
  ⟨(thinkingUnsupported_oneshot MAX_TRANSIENT_RETRIES outThinkOk).1 0 0 0 none
      "Thinking level is not supported for this model." rfl (by decide),
   (thinkingUnsupported_oneshot MAX_TRANSIENT_RETRIES outThinkOk).2.1 5 3 7 none,
   (thinkingUnsupported_oneshot MAX_TRANSIENT_RETRIES outThinkOk).2.2 [] "m" 0⟩

/-- C1: when the retry loop raises a CacheInvalid-classified failure, the
cache-aware wrapper removes the cache entry of the current model (so the map
no longer resolves for it), runs the retry loop exactly once more on the same
outcome stream (same model) returning that outcome with its call count, and
the next request config built for that model from the resulting state carries
the inline system instruction and no cache reference. -/
theorem cacheInvalid_recovery (mode lvl prompt model : String)
    (cacheMap : List (String × String)) (outcomes : Nat → Except String Resp)
    (idx : Nat) (e : String)
    (h1 : (retryLoop mode outcomes idx).result = Except.error e)
    (h2 : classify e = FaultKind.CacheInvalid) :
    (generateContentWithRetry mode cacheMap model outcomes idx).cacheMap
        = invalidatePromptCache cacheMap model
    ∧ ((generateContentWithRetry mode cacheMap model outcomes idx).cacheMap.lookup
        model) = none
    ∧ (generateContentWithRetry mode cacheMap model outcomes idx).result
        = (retryLoop (retryLoop mode outcomes idx).mode outcomes
            (retryLoop mode outcomes idx).calls).result
    ∧ (generateContentWithRetry mode cacheMap model outcomes idx).calls
        = (retryLoop (retryLoop mode outcomes idx).mode outcomes
            (retryLoop mode outcomes idx).calls).calls
    ∧ (buildGenerateConfig
        (generateContentWithRetry mode cacheMap model outcomes idx).mode lvl
        (generateContentWithRetry mode cacheMap model outcomes idx).cacheMap
        model prompt).cachedContent = none
    ∧ (buildGenerateConfig
        (generateContentWithRetry mode cacheMap model outcomes idx).mode lvl
        (generateContentWithRetry mode cacheMap model outcomes idx).cacheMap
        model prompt).systemInstruction = some prompt := by
  have hout : generateContentWithRetry mode cacheMap model outcomes idx
      = ⟨(retryLoop (retryLoop mode outcomes idx).mode outcomes
            (retryLoop mode outcomes idx).calls).result,
         (retryLoop (retryLoop mode outcomes idx).mode outcomes
            (retryLoop mode outcomes idx).calls).calls,
         (retryLoop (retryLoop mode outcomes idx).mode outcomes
            (retryLoop mode outcomes idx).calls).mode,
         invalidatePromptCache cacheMap model⟩ := by
    simp only [generateContentWithRetry]
    rw [h1]
    dsimp only
    rw [if_pos h2]
  rw [hout]
  refine ⟨rfl, lookup_invalidate cacheMap model, rfl, rfl, ?_, ?_⟩
  · simp [buildGenerateConfig, lookup_invalidate]
  · simp [buildGenerateConfig, lookup_invalidate]

/-- Outcomes: a cache-invalid failure, then success. -/
def outCacheThenOk : Nat → Except String Resp :=
  fun i => if i = 0
    then Except.error "403 permission_denied: cachedcontent not found"
    else Except.ok respOk

/-- C1 (witness): the cache-invalid recovery at a concrete session whose map
holds a cache entry for the current model. -/
theorem cacheInvalid_recovery_witness :
    (generateContentWithRetry "level" [("m", "cachedContents/abc")] "m"
        outCacheThenOk 0).cacheMap.lookup "m" = none
    ∧ (buildGenerateConfig
        (generateContentWithRetry "level" [("m", "cachedContents/abc")] "m"
          outCacheThenOk 0).mode "minimal"
        (generateContentWithRetry "level" [("m", "cachedContents/abc")] "m"
          outCacheThenOk 0).cacheMap "m" "sys").systemInstruction = some "sys" :=
  ⟨(cacheInvalid_recovery "level" "minimal" "sys" "m" [("m", "cachedContents/abc")]
      outCacheThenOk 0 "403 permission_denied: cachedcontent not found" rfl
      (by decide)).2.1,
   (cacheInvalid_recovery "level" "minimal" "sys" "m" [("m", "cachedContents/abc")]
      outCacheThenOk 0 "403 permission_denied: cachedcontent not found" rfl
      (by decide)).2.2.2.2.2⟩

/-- C6: session construction succeeds exactly when an API credential is
available (it raises only for a missing credential); transcribe raises only
for a missing audio source, returns a result pair for every outcome stream
once the audio exists, and when every provider call fails it returns the pair
with empty text instead of raising. -/
theorem transcribe_contract :
    (∀ (apiKeyArg googleApiKeyEnv thinkingLevelEnv cacheEnableEnv
          cacheTtlEnv : Option String) (modelEnvVar : String)
        (fetch : Option (List ModelInfo)) (cacheCreate : Option String),
        (∃ s, initSession apiKeyArg googleApiKeyEnv thinkingLevelEnv
            cacheEnableEnv cacheTtlEnv modelEnvVar fetch cacheCreate
          = Except.ok s)
          ↔ effectiveApiKey apiKeyArg googleApiKeyEnv ≠ "")
    ∧ (∀ (env : TranscribeEnv) (st : Session), env.audioExists = false →
        transcribe env st = Except.error "Audio file not found")
    ∧ (∀ (env : TranscribeEnv) (st : Session), env.audioExists = true →
        ∃ out, transcribe env st = Except.ok out)
    ∧ (∀ (env : TranscribeEnv) (st : Session), env.audioExists = true →
        (∀ i, ∃ m, env.outcomes i = Except.error m) →
        ∃ out, transcribe env st = Except.ok out ∧ out.1 = "") := by
  refine ⟨?_, ?_, ?_, ?_⟩
  · intro a b c d e f g h
    by_cases hk : effectiveApiKey a b = ""
    · simp [initSession, hk]
    · simp [initSession, hk]
  · intro env st h
    simp [transcribe, h]
  · intro env st h
    simp only [transcribe, h]
    rw [if_neg (by simp)]
    cases hr1 : (generateContentWithRetry st.thinkingMode st.promptCache
        st.modelName env.outcomes 0).result with
    | ok resp => exact ⟨_, rfl⟩
    | error e =>
      dsimp only
      by_cases hmn : (isModelNotFoundError e || isTransientApiError e) = true
      · rw [if_pos hmn]
        by_cases hne : resolveModelName env.modelEnvVar env.fetch
            [(⟨st.apiKey, st.modelName,
              (generateContentWithRetry st.thinkingMode st.promptCache
                st.modelName env.outcomes 0).mode, st.thinkingLevel,
              st.enablePromptCache, st.promptCacheTtl,
              (generateContentWithRetry st.thinkingMode st.promptCache
                st.modelName env.outcomes 0).cacheMap⟩ : Session).modelName] ≠ ""
        · rw [if_pos hne]
          cases hr2 : (generateContentWithRetry
              (generateContentWithRetry st.thinkingMode st.promptCache
                st.modelName env.outcomes 0).mode
              (ensurePromptCache st.enablePromptCache
                (generateContentWithRetry st.thinkingMode st.promptCache
                  st.modelName env.outcomes 0).cacheMap
                (resolveModelName env.modelEnvVar env.fetch
                  [(⟨st.apiKey, st.modelName,
                    (generateContentWithRetry st.thinkingMode st.promptCache
                      st.modelName env.outcomes 0).mode, st.thinkingLevel,
                    st.enablePromptCache, st.promptCacheTtl,
                    (generateContentWithRetry st.thinkingMode st.promptCache
                      st.modelName env.outcomes 0).cacheMap⟩ : Session).modelName])
                env.cacheCreateOnFallback)
              (resolveModelName env.modelEnvVar env.fetch
                [(⟨st.apiKey, st.modelName,
                  (generateContentWithRetry st.thinkingMode st.promptCache
                    st.modelName env.outcomes 0).mode, st.thinkingLevel,
                  st.enablePromptCache, st.promptCacheTtl,
                  (generateContentWithRetry st.thinkingMode st.promptCache
                    st.modelName env.outcomes 0).cacheMap⟩ : Session).modelName])
              env.outcomes
              (generateContentWithRetry st.thinkingMode st.promptCache
                st.modelName env.outcomes 0).calls).result with
          | ok resp2 => exact ⟨_, rfl⟩
          | error e2 => exact ⟨_, rfl⟩
        · rw [if_neg hne]
          exact ⟨_, rfl⟩
      · rw [if_neg hmn]
        exact ⟨_, rfl⟩
  · intro env st h hall
    obtain ⟨m1, hm1⟩ := generateContentWithRetry_allErr env.outcomes hall
      st.thinkingMode st.promptCache st.modelName 0
    simp only [transcribe, h]
    rw [if_neg (by simp)]
    rw [hm1]
    dsimp only
    by_cases hmn : (isModelNotFoundError m1 || isTransientApiError m1) = true
    · rw [if_pos hmn]
      by_cases hne : resolveModelName env.modelEnvVar env.fetch
          [(⟨st.apiKey, st.modelName,
            (generateContentWithRetry st.thinkingMode st.promptCache
              st.modelName env.outcomes 0).mode, st.thinkingLevel,
            st.enablePromptCache, st.promptCacheTtl,
            (generateContentWithRetry st.thinkingMode st.promptCache
              st.modelName env.outcomes 0).cacheMap⟩ : Session).modelName] ≠ ""
      · rw [if_pos hne]
        obtain ⟨m2, hm2⟩ := generateContentWithRetry_allErr env.outcomes hall _ _ _
          (generateContentWithRetry st.thinkingMode st.promptCache
            st.modelName env.outcomes 0).calls
        rw [hm2]
        exact ⟨_, rfl, rfl⟩
      · rw [if_neg hne]
        exact ⟨_, rfl, rfl⟩
    · rw [if_neg hmn]
      exact ⟨_, rfl, rfl⟩

/-- A concrete session for the transcribe witnesses. -/
def stExample : Session := ⟨"k", "m", "level", "minimal", true, "3600s", []⟩

/-- A transcribe environment with no audio file. -/
def envNoAudio : TranscribeEnv := ⟨false, fun _ => Except.error "boom", none, "", none⟩

/-- A transcribe environment where every provider call fails. -/
def envAllErr : TranscribeEnv := ⟨true, fun _ => Except.error "boom", none, "", none⟩

/-- C6 (witness): the contract at concrete environments: construction with a
key succeeds, missing audio raises, and all-failing provider calls yield an
ok pair with empty text. -/
theorem transcribe_contract_witness :
    (∃ s, initSession (some "k") none none none none "" none none = Except.ok s)
    ∧ transcribe envNoAudio stExample = Except.error "Audio file not found"
    ∧ (∃ out, transcribe envAllErr stExample = Except.ok out ∧ out.1 = "") :=
  ⟨(transcribe_contract.1 (some "k") none none none none "" none none).mpr
      (by decide),
   transcribe_contract.2.1 envNoAudio stExample rfl,
   transcribe_contract.2.2.2 envAllErr stExample rfl
      (fun _ => ⟨"boom", rfl⟩)⟩

end Vibescribe
